import Mathlib

/-!
# Verification of the idpos_visualizer repository

Shallow embedding of the two scripts of the repository:

* `src/data/demo_data_gen.py` — a synthetic data generator producing three
  tables (households, products, transactions).  Randomness (`np.random.*`,
  `DataFrame.sample`) is modelled by abstract draw streams: each random call
  of the script corresponds to one field of a draw record, and the support
  of each distribution is captured by an `InSupport` predicate.  Monetary
  values are modelled at exact rational precision; `round(x, 2)` is modelled
  by rounding to the nearest multiple of 1/100.
* `src/ingestion/load_data.py` — a loader that reads three CSV files and
  uploads them to a warehouse.  The external effects (connect, read CSV,
  upload) are modelled by an environment recording, for each call, whether
  it returns normally or raises an exception; the function's observable
  behaviour (console prints, whether the connection was closed, whether an
  exception propagated) is computed from that environment.
-/

set_option autoImplicit false

namespace DemoDataGen

/-! ## String containment, `"pat" in s` of Python -/

/-- `leadMatch pat l` is true iff `pat` is an initial segment of `l`. -/
def leadMatch : List Char → List Char → Bool
  | [], _ => true
  | _ :: _, [] => false
  | a :: as, b :: bs => a == b && leadMatch as bs

/-- Auxiliary scan for substring containment. -/
def containsAux (pat : List Char) : List Char → Bool
  | [] => leadMatch pat []
  | c :: t => leadMatch pat (c :: t) || containsAux pat t

/-- Python's `pat in s` substring test. -/
def strContains (s pat : String) : Bool :=
  containsAux pat.toList s.toList

/-! ## Rounding: Python's `round(x, 2)` at rational precision -/

/-- `round(x, 2)`: round to the nearest multiple of 1/100.  The claims
proved below do not depend on the tie-breaking rule. -/
def round2 (x : ℚ) : ℚ := (round (100 * x) : ℤ) / 100

/-! ## Fixed category lists of `demo_data_gen.py` -/

def age_groups : List String :=
  ["19-24", "25-34", "35-44", "45-54", "55-64", "65+"]

def income_groups : List String :=
  ["Under 15K", "15-24K", "25-34K", "35-49K", "50-74K", "75-99K",
   "100-124K", "150-174K", "250K+"]

def hh_comp : List String :=
  ["1 Adult Kids", "2 Adults Kids", "2 Adults No Kids", "Single Female",
   "Single Male"]

def hh_sizes : List String := ["1", "2", "3", "4", "5+"]

def marital_codes : List String := ["A", "B", "U"]

def homeowner_descs : List String := ["Homeowner", "Renter", "Unknown"]

def kid_categories : List String := ["None/Unknown", "1", "2", "3+"]

def departments : List String :=
  ["GROCERY", "DRUG GM", "PRODUCE", "MEAT-PCKGD", "PASTRY", "SEAFOOD-PCKGD"]

/-- The `commodities` dict: department → list of valid commodities.  Every
lookup performed by the script uses a key drawn from `departments`. -/
def commodities (dept : String) : List String :=
  if dept = "GROCERY" then
    ["SOFT DRINKS", "CHEESE", "COOKIES/CONES", "BAKED BREAD/BUNS/ROLLS"]
  else if dept = "DRUG GM" then
    ["VITAMINS", "CIGARETTES", "DIAPERS & DISPOSABLES"]
  else if dept = "PRODUCE" then
    ["POTATOES", "SALAD MIX", "FRUIT - SHELF STABLE"]
  else if dept = "MEAT-PCKGD" then
    ["DINNER SAUSAGE", "LUNCHMEAT"]
  else if dept = "PASTRY" then
    ["BREAD", "CAKES"]
  else if dept = "SEAFOOD-PCKGD" then
    ["SEAFOOD - FROZEN"]
  else []

def brands : List String := ["National", "Private"]

def store_ids : List Nat := [300, 400, 500]

/-! ## Row types (one record per generated table row) -/

structure Household where
  household_key : Nat
  AGE_DESC : String
  MARITAL_STATUS_CODE : String
  INCOME_DESC : String
  HOMEOWNER_DESC : String
  HH_COMP_DESC : String
  HOUSEHOLD_SIZE_DESC : String
  KID_CATEGORY_DESC : String
  deriving Repr, DecidableEq

structure Product where
  PRODUCT_ID : Nat
  MANUFACTURER : Nat
  DEPARTMENT : String
  BRAND : String
  COMMODITY_DESC : String
  SUB_COMMODITY_DESC : String
  CURR_SIZE_OF_PRODUCT : String
  deriving Repr, DecidableEq

/-- One transaction row.  `DAY` in the script is the date string of
`start_date + timedelta(days=days_offset)`; the date is represented here by
`dayOffset`, the offset in days from the fixed epoch 2021-01-01. -/
structure Transaction where
  HOUSEHOLD_KEY : Nat
  BASKET_ID : Nat
  dayOffset : Nat
  PRODUCT_ID : Nat
  QUANTITY : Nat
  SALES_VALUE : ℚ
  STORE_ID : Nat
  RETAIL_DISC : ℚ
  TRANS_TIME : Nat
  WEEK_NO : Nat
  deriving Repr, DecidableEq

def emptyHousehold : Household := ⟨0, "", "", "", "", "", "", ""⟩

def emptyProduct : Product := ⟨0, 0, "", "", "", "", ""⟩

def emptyTransaction : Transaction := ⟨0, 0, 0, 0, 0, 0, 0, 0, 0, 0⟩

/-! ## Draw records: one field per random call of the script, in call order -/

/-- Draws of one `demo_df` row: indices into the category lists. -/
structure HouseholdDraw where
  ageIdx : Nat
  maritalIdx : Nat
  incomeIdx : Nat
  homeownerIdx : Nat
  compIdx : Nat
  sizeIdx : Nat
  kidIdx : Nat
  deriving Repr, DecidableEq

def HouseholdDraw.InSupport (d : HouseholdDraw) : Prop :=
  d.ageIdx < 6 ∧ d.maritalIdx < 3 ∧ d.incomeIdx < 9 ∧ d.homeownerIdx < 3 ∧
  d.compIdx < 5 ∧ d.sizeIdx < 5 ∧ d.kidIdx < 4

instance (d : HouseholdDraw) : Decidable d.InSupport := by
  unfold HouseholdDraw.InSupport; infer_instance

/-- Draws of one product row: `np.random.choice(departments)`,
`np.random.choice(commodities[dept])`, `np.random.randint(1, 100)`,
`np.random.choice(["National", "Private"])`, `np.random.randint(5, 50)`. -/
structure ProductDraw where
  deptIdx : Nat
  commIdx : Nat
  manufacturer : Nat
  brandIdx : Nat
  sizeVal : Nat
  deriving Repr, DecidableEq

def ProductDraw.InSupport (d : ProductDraw) : Prop :=
  d.deptIdx < 6 ∧
  d.commIdx < (commodities (departments.getD d.deptIdx "")).length ∧
  1 ≤ d.manufacturer ∧ d.manufacturer < 100 ∧
  d.brandIdx < 2 ∧ 5 ≤ d.sizeVal ∧ d.sizeVal < 50

instance (d : ProductDraw) : Decidable d.InSupport := by
  unfold ProductDraw.InSupport; infer_instance

/-- Draws of one transaction row, in the call order of the loop body:
household index, product sample, `randint(0, 365)`, `uniform(1.0, 10.0)`,
`randint(1, 3)` (base quantity), `randint(1, 3)` (kids bump, consumed only
when the household has kids), the weekend `rand() < 0.2` gate, the store
choice, the `rand() > 0.8` discount gate, `randint(800, 2200)`. -/
structure TransactionDraw where
  hhIdx : Nat
  prodIdx : Nat
  daysOffset : Nat
  basePrice : ℚ
  qtyBase : Nat
  qtyKids : Nat
  weekendSpike : Bool
  storeIdx : Nat
  discGate : Bool
  transTime : Nat
  deriving Repr, DecidableEq

def TransactionDraw.InSupport (d : TransactionDraw) : Prop :=
  d.hhIdx < 100 ∧ d.prodIdx < 50 ∧ d.daysOffset < 365 ∧
  1 ≤ d.basePrice ∧ d.basePrice < 10 ∧
  1 ≤ d.qtyBase ∧ d.qtyBase < 3 ∧ 1 ≤ d.qtyKids ∧ d.qtyKids < 3 ∧
  d.storeIdx < 3 ∧ 800 ≤ d.transTime ∧ d.transTime < 2200

instance (d : TransactionDraw) : Decidable d.InSupport := by
  unfold TransactionDraw.InSupport; infer_instance

/-! ## Table construction -/

/-- Row `i` (0-based) of `demo_df`: `household_key` column is
`range(1, 101)`, all other columns independent draws. -/
def mkHousehold (key : Nat) (d : HouseholdDraw) : Household :=
  { household_key := key
    AGE_DESC := age_groups.getD d.ageIdx ""
    MARITAL_STATUS_CODE := marital_codes.getD d.maritalIdx ""
    INCOME_DESC := income_groups.getD d.incomeIdx ""
    HOMEOWNER_DESC := homeowner_descs.getD d.homeownerIdx ""
    HH_COMP_DESC := hh_comp.getD d.compIdx ""
    HOUSEHOLD_SIZE_DESC := hh_sizes.getD d.sizeIdx ""
    KID_CATEGORY_DESC := kid_categories.getD d.kidIdx "" }

/-- `demo_df`: 100 households with keys 1..100. -/
def demo_df (draws : Nat → HouseholdDraw) : List Household :=
  (List.range 100).map (fun i => mkHousehold (i + 1) (draws i))

/-- One iteration of `for i in range(1, 51)` of the product loop. -/
def mkProduct (i : Nat) (d : ProductDraw) : Product :=
  let dept := departments.getD d.deptIdx ""
  let comm := (commodities dept).getD d.commIdx ""
  { PRODUCT_ID := 1000 + i
    MANUFACTURER := d.manufacturer
    DEPARTMENT := dept
    BRAND := brands.getD d.brandIdx ""
    COMMODITY_DESC := comm
    SUB_COMMODITY_DESC := "SUB_" ++ comm
    CURR_SIZE_OF_PRODUCT := toString d.sizeVal ++ " OZ" }

/-- `product_df`: 50 products, loop indices 1..50. -/
def product_df (draws : Nat → ProductDraw) : List Product :=
  (List.range 50).map (fun i => mkProduct (i + 1) (draws i))

/-- `trans_date.weekday()` for `start_date + timedelta(days=offset)`:
2021-01-01 is a Friday, i.e. weekday 4 in Python's Monday=0 convention. -/
def weekday (offset : Nat) : Nat := (4 + offset) % 7

/-- `is_weekend = trans_date.weekday() >= 5`. -/
def isWeekend (offset : Nat) : Bool := 5 ≤ weekday offset

/-- `'100' in hh["INCOME_DESC"] or '250' in hh["INCOME_DESC"]`. -/
def isHighIncome (hh : Household) : Bool :=
  strContains hh.INCOME_DESC "100" || strContains hh.INCOME_DESC "250"

/-- The unit price of one transaction: `base_price`, multiplied by 1.5 for
high-income households. -/
def unitPrice (hh : Household) (d : TransactionDraw) : ℚ :=
  if isHighIncome hh then d.basePrice * (3 / 2) else d.basePrice

/-- The final quantity: base `randint(1, 3)`, plus `randint(1, 3)` when the
household's kid category is not `"None/Unknown"`, plus 1 when the date is a
weekend and the 0.2-probability gate fired. -/
def quantity (hh : Household) (d : TransactionDraw) : Nat :=
  let q := d.qtyBase
  let q := if hh.KID_CATEGORY_DESC ≠ "None/Unknown" then q + d.qtyKids else q
  if isWeekend d.daysOffset ∧ d.weekendSpike then q + 1 else q

/-- One iteration of `for i in range(2000)` of the transaction loop. -/
def mkTransaction (demo : List Household) (prods : List Product) (i : Nat)
    (d : TransactionDraw) : Transaction :=
  let hh := demo.getD d.hhIdx emptyHousehold
  let prod := prods.getD d.prodIdx emptyProduct
  let qty := quantity hh d
  let sales_value := round2 (unitPrice hh d * qty)
  { HOUSEHOLD_KEY := hh.household_key
    BASKET_ID := 30000000000 + i / 3
    dayOffset := d.daysOffset
    PRODUCT_ID := prod.PRODUCT_ID
    QUANTITY := qty
    SALES_VALUE := sales_value
    STORE_ID := store_ids.getD d.storeIdx 0
    RETAIL_DISC := if d.discGate then round2 (sales_value * (1 / 10)) else 0
    TRANS_TIME := d.transTime
    WEEK_NO := d.daysOffset / 7 + 1 }

/-- `transaction_df`: 2000 transactions drawn against the two tables. -/
def transaction_df (demo : List Household) (prods : List Product)
    (draws : Nat → TransactionDraw) : List Transaction :=
  (List.range 2000).map (fun i => mkTransaction demo prods i (draws i))

/-- The whole stream of draws consumed by one run of the script: the
deterministic pseudo-random sequence that `np.random.seed(42)` fixes. -/
structure GenDraws where
  hh : Nat → HouseholdDraw
  prod : Nat → ProductDraw
  trans : Nat → TransactionDraw

/-- The complete run of `demo_data_gen.py`: the three tables it writes out. -/
def runGenerator (g : GenDraws) :
    List Household × List Product × List Transaction :=
  let demo := demo_df g.hh
  let prods := product_df g.prod
  (demo, prods, transaction_df demo prods g.trans)

/-! ## Sample draw streams (concrete, in-support instantiations) -/

def sampleHouseholdDraw : HouseholdDraw := ⟨0, 0, 0, 0, 0, 0, 0⟩

def sampleProductDraw : ProductDraw := ⟨0, 0, 1, 0, 5⟩

def sampleTransactionDraw : TransactionDraw :=
  ⟨0, 0, 0, 2, 1, 1, false, 0, false, 800⟩

def sampleGenDraws : GenDraws :=
  ⟨fun _ => sampleHouseholdDraw, fun _ => sampleProductDraw,
   fun _ => sampleTransactionDraw⟩

/-- The concrete transaction table generated from the sample draw stream. -/
def sampleTable : List Transaction :=
  transaction_df (demo_df sampleGenDraws.hh) (product_df sampleGenDraws.prod)
    sampleGenDraws.trans

end DemoDataGen

namespace LoadData

/-! ## Embedding of `src/ingestion/load_data.py`

Each external call of `load_csv_to_snowflake` — `get_snowflake_connection()`,
`pd.read_csv(...)`, `write_pandas(...)` — either returns normally or raises
an exception (of Python's `Exception` hierarchy, the only kind the script's
`except Exception` clause is concerned with).  An environment fixes, for one
load operation, the outcome of each of these calls; the function is embedded
as a computation of its observable behaviour from that environment.  -/

/-- Outcome of one external call: return normally, or raise an exception
carrying a message. -/
inductive Outcome (α : Type) where
  | ok : α → Outcome α
  | exn : String → Outcome α
  deriving Repr, DecidableEq

/-- The `(success, nchunks, nrows, _)` tuple returned by `write_pandas`. -/
structure WritePandasResult where
  success : Bool
  nchunks : Nat
  nrows : Nat
  deriving Repr, DecidableEq

/-- The environment of one load operation: what each external call does.
The connection handle and the dataframe are irrelevant to the observable
behaviour and are modelled as `Unit`. -/
structure LoadEnv where
  connectResult : Outcome Unit
  readResult : Outcome Unit
  writeResult : Outcome WritePandasResult
  deriving Repr, DecidableEq

/-- The observable behaviour of one call of `load_csv_to_snowflake`:
the console lines printed, whether `conn.close()` ran, and whether an
exception propagated out of the call (with its message). -/
structure LoadTrace where
  prints : List String
  connClosed : Bool
  raised : Option String
  deriving Repr, DecidableEq

def startMsg (file_path table_name : String) : String :=
  "Starting ingestion for: " ++ file_path ++ " into table " ++ table_name

def errorMsg (e : String) : String := "Error during ingestion: " ++ e

def successMsg (nrows : Nat) (table_name : String) : String :=
  "Successfully ingested " ++ toString nrows ++ " rows into " ++ table_name

/-- `load_csv_to_snowflake(file_path, table_name)`.  Note that
`conn = get_snowflake_connection()` runs before the `try` block: an
exception raised there propagates out of the function, uncaught, with
nothing printed and no connection to close.  Inside the `try`, a read or
upload exception is caught and logged, and the `finally` clause closes the
connection on every path. -/
def load_csv_to_snowflake (env : LoadEnv) (file_path table_name : String) :
    LoadTrace :=
  match env.connectResult with
  | .exn e => { prints := [], connClosed := false, raised := some e }
  | .ok _ =>
    let start := startMsg file_path table_name
    match env.readResult with
    | .exn e =>
      { prints := [start, errorMsg e], connClosed := true, raised := none }
    | .ok _ =>
      match env.writeResult with
      | .exn e =>
        { prints := [start, errorMsg e], connClosed := true, raised := none }
      | .ok r =>
        if r.success then
          { prints := [start, successMsg r.nrows table_name],
            connClosed := true, raised := none }
        else
          { prints := [start], connClosed := true, raised := none }

/-- Run a sequence of load operations the way the Python top level does:
strictly in order, stopping as soon as one of them lets an exception
propagate (an uncaught exception terminates the process).  Returns the
traces of the operations that ran and the uncaught exception, if any. -/
def runOps : List (LoadEnv × String × String) → List LoadTrace × Option String
  | [] => ([], none)
  | (env, fp, tn) :: rest =>
    let t := load_csv_to_snowflake env fp tn
    match t.raised with
    | some e => ([t], some e)
    | none =>
      let (ts, r) := runOps rest
      (t :: ts, r)

/-- The `__main__` block: the three fixed (file, table) load operations. -/
def runMain (e1 e2 e3 : LoadEnv) : List LoadTrace × Option String :=
  runOps [(e1, "./data/transaction_data.csv", "TRANSACTIONS"),
          (e2, "./data/product.csv", "PRODUCTS"),
          (e3, "./data/hh_demographic.csv", "DEMOGRAPHICS")]

/-- A fully successful environment. -/
def okEnv : LoadEnv :=
  { connectResult := .ok (), readResult := .ok (),
    writeResult := .ok ⟨true, 1, 2000⟩ }

/-- An environment whose connection acquisition raises. -/
def connFailEnv : LoadEnv :=
  { connectResult := .exn "250001: could not connect",
    readResult := .ok (), writeResult := .ok ⟨true, 1, 2000⟩ }

/-- An environment whose upload call raises. -/
def uploadFailEnv : LoadEnv :=
  { connectResult := .ok (), readResult := .ok (),
    writeResult := .exn "ProgrammingError: upload failed" }

end LoadData

namespace DemoDataGen

/-! ## Generator lemmas -/

lemma getD_map_range {α : Type} (f : Nat → α) (d : α) {n i : Nat} (h : i < n) :
    ((List.range n).map f).getD i d = f i := by
  have hlen : i < ((List.range n).map f).length := by
    simpa using h
  rw [List.getD_eq_getElem _ d hlen]
  simp

lemma getD_mem_of_lt {α : Type} (l : List α) (i : Nat) (d : α)
    (h : i < l.length) : l.getD i d ∈ l := by
  rw [List.getD_eq_getElem l d h]
  exact List.getElem_mem h

lemma demo_df_length (draws : Nat → HouseholdDraw) :
    (demo_df draws).length = 100 := by
  simp [demo_df]

lemma product_df_length (draws : Nat → ProductDraw) :
    (product_df draws).length = 50 := by
  simp [product_df]

lemma transaction_df_length (demo : List Household) (prods : List Product)
    (draws : Nat → TransactionDraw) :
    (transaction_df demo prods draws).length = 2000 := by
  simp [transaction_df]

lemma transaction_df_getD (demo : List Household) (prods : List Product)
    (draws : Nat → TransactionDraw) {i : Nat} (h : i < 2000) :
    (transaction_df demo prods draws).getD i emptyTransaction =
      mkTransaction demo prods i (draws i) :=
  getD_map_range _ _ h

@[simp] lemma mkTransaction_BASKET_ID (demo : List Household)
    (prods : List Product) (i : Nat) (d : TransactionDraw) :
    (mkTransaction demo prods i d).BASKET_ID = 30000000000 + i / 3 := rfl

@[simp] lemma mkTransaction_HOUSEHOLD_KEY (demo : List Household)
    (prods : List Product) (i : Nat) (d : TransactionDraw) :
    (mkTransaction demo prods i d).HOUSEHOLD_KEY =
      (demo.getD d.hhIdx emptyHousehold).household_key := rfl

@[simp] lemma mkTransaction_PRODUCT_ID (demo : List Household)
    (prods : List Product) (i : Nat) (d : TransactionDraw) :
    (mkTransaction demo prods i d).PRODUCT_ID =
      (prods.getD d.prodIdx emptyProduct).PRODUCT_ID := rfl

@[simp] lemma mkTransaction_QUANTITY (demo : List Household)
    (prods : List Product) (i : Nat) (d : TransactionDraw) :
    (mkTransaction demo prods i d).QUANTITY =
      quantity (demo.getD d.hhIdx emptyHousehold) d := rfl

@[simp] lemma mkTransaction_SALES_VALUE (demo : List Household)
    (prods : List Product) (i : Nat) (d : TransactionDraw) :
    (mkTransaction demo prods i d).SALES_VALUE =
      round2 (unitPrice (demo.getD d.hhIdx emptyHousehold) d *
        quantity (demo.getD d.hhIdx emptyHousehold) d) := rfl

/-- Count of indices below `n` whose quotient by 3 equals `b`. -/
lemma countP_range_div_three (b n : Nat) :
    (List.range n).countP (fun i => decide (i / 3 = b)) =
      min n (3 * b + 3) - min n (3 * b) := by
  induction n with
  | zero => simp
  | succ n ih =>
    rw [List.range_succ, List.countP_append, ih]
    simp only [List.countP_cons, List.countP_nil]
    by_cases h : n / 3 = b
    · simp only [h, decide_eq_true_eq, if_true]
      omega
    · rw [if_neg (by simpa using h)]
      omega

/-- The basket-id count in the full 2000-row table, for any draw stream:
3 per basket for the first 666 baskets, 2 for basket 666, none beyond. -/
lemma transaction_df_basket_count (demo : List Household)
    (prods : List Product) (draws : Nat → TransactionDraw) (b : Nat) :
    (transaction_df demo prods draws).countP
        (fun t => decide (t.BASKET_ID = 30000000000 + b)) =
      if b < 666 then 3 else if b = 666 then 2 else 0 := by
  unfold transaction_df
  rw [List.countP_map]
  have hpt : ((fun t => decide (t.BASKET_ID = 30000000000 + b)) ∘
      fun i => mkTransaction demo prods i (draws i)) =
      fun i => decide (i / 3 = b) := by
    funext i
    simp only [Function.comp_apply, mkTransaction_BASKET_ID]
    rw [decide_eq_decide]
    omega
  rw [hpt, countP_range_div_three]
  split_ifs <;> omega

end DemoDataGen


namespace LoadData

/-! ## Loader lemmas and claims -/

/-- Once the connection is acquired, `load_csv_to_snowflake` never lets an
exception escape: read and upload errors are absorbed by the `except` clause. -/
lemma load_raised_none (env : LoadEnv) (fp tn : String)
    (h : env.connectResult = Outcome.ok ()) :
    (load_csv_to_snowflake env fp tn).raised = none := by
  obtain ⟨c, rd, wr⟩ := env
  simp only at h
  subst h
  rcases rd with _ | e
  · rcases wr with r | e
    · by_cases hs : r.success <;> simp [load_csv_to_snowflake, hs]
    · rfl
  · rfl

/-- Once the connection is acquired, any exception actually raised during
the operation — by the read, or by the upload after a successful read — is
logged to the console. -/
lemma load_logs_error (env : LoadEnv) (fp tn m : String)
    (h : env.connectResult = Outcome.ok ())
    (he : env.readResult = Outcome.exn m ∨
      (env.readResult = Outcome.ok () ∧ env.writeResult = Outcome.exn m)) :
    errorMsg m ∈ (load_csv_to_snowflake env fp tn).prints := by
  obtain ⟨c, rd, wr⟩ := env
  simp only at h he
  subst h
  rcases he with he | ⟨hr, hw⟩
  · subst he
    simp [load_csv_to_snowflake]
  · subst hr
    subst hw
    simp [load_csv_to_snowflake]

/-- The starting line is not an error line: the two differ at their first
character, detected by a prefix scan. -/
lemma startMsg_ne_errorMsg (fp tn e : String) : startMsg fp tn ≠ errorMsg e := by
  intro h
  have hb := congrArg
    (fun s => DemoDataGen.leadMatch "Starting ingestion for: ".toList s.data) h
  simp only [startMsg, errorMsg, String.data_append] at hb
  exact Bool.noConfusion (show (true : Bool) = false from hb)

/-- The starting line is not a success line: the two differ at their second
character, detected by a prefix scan. -/
lemma startMsg_ne_successMsg (fp tn : String) (n : Nat) (tn' : String) :
    startMsg fp tn ≠ successMsg n tn' := by
  intro h
  have hb := congrArg
    (fun s => DemoDataGen.leadMatch "Successfully ingested ".toList s.data) h
  simp only [startMsg, successMsg, String.data_append] at hb
  exact Bool.noConfusion (show (false : Bool) = true from hb)

/-- C5: in every load operation whose warehouse connection is successfully
acquired, the connection is closed before the operation returns, on every
exit path: after a successful upload, after an unsuccessful upload result,
and after any exception raised during file read or upload (the `finally`
clause of `load_csv_to_snowflake`). -/
theorem C5_connection_always_closed (env : LoadEnv) (fp tn : String)
    (h : env.connectResult = Outcome.ok ()) :
    (load_csv_to_snowflake env fp tn).connClosed = true := by
  obtain ⟨c, rd, wr⟩ := env
  simp only at h
  subst h
  rcases rd with _ | e
  · rcases wr with r | e
    · by_cases hs : r.success <;> simp [load_csv_to_snowflake, hs]
    · rfl
  · rfl

theorem C5_connection_always_closed_witness :
    uploadFailEnv.connectResult = Outcome.ok () ∧
    (load_csv_to_snowflake uploadFailEnv "./data/transaction_data.csv"
      "TRANSACTIONS").connClosed = true :=
  ⟨rfl, C5_connection_always_closed uploadFailEnv "./data/transaction_data.csv"
    "TRANSACTIONS" rfl⟩

/-- C10: when `write_pandas` returns `success = False` without raising, the
loader prints only the starting line — neither the success message nor an
error message — and still closes the connection, raising nothing. -/
theorem C10_silent_upload_failure (env : LoadEnv) (fp tn : String)
    (r : WritePandasResult)
    (hc : env.connectResult = Outcome.ok ())
    (hr : env.readResult = Outcome.ok ())
    (hw : env.writeResult = Outcome.ok r)
    (hs : r.success = false) :
    (load_csv_to_snowflake env fp tn).prints = [startMsg fp tn] ∧
    (∀ e, errorMsg e ∉ (load_csv_to_snowflake env fp tn).prints) ∧
    (∀ n, successMsg n tn ∉ (load_csv_to_snowflake env fp tn).prints) ∧
    (load_csv_to_snowflake env fp tn).connClosed = true ∧
    (load_csv_to_snowflake env fp tn).raised = none := by
  obtain ⟨c, rd, wr⟩ := env
  simp only at hc hr hw
  subst hc; subst hr; subst hw
  have hload : load_csv_to_snowflake ⟨Outcome.ok (), Outcome.ok (), Outcome.ok r⟩ fp tn =
      { prints := [startMsg fp tn], connClosed := true, raised := none } := by
    simp [load_csv_to_snowflake, hs]
  refine ⟨by rw [hload], ?_, ?_, by rw [hload], by rw [hload]⟩
  · intro e hmem
    rw [hload] at hmem
    have h := List.mem_singleton.mp hmem
    exact absurd h.symm (startMsg_ne_errorMsg fp tn e)
  · intro n hmem
    rw [hload] at hmem
    have h := List.mem_singleton.mp hmem
    exact absurd h.symm (startMsg_ne_successMsg fp tn n tn)

theorem C10_silent_upload_failure_witness :
    (load_csv_to_snowflake ⟨Outcome.ok (), Outcome.ok (), Outcome.ok ⟨false, 0, 0⟩⟩
        "./data/product.csv" "PRODUCTS").prints =
      [startMsg "./data/product.csv" "PRODUCTS"] ∧
    (load_csv_to_snowflake ⟨Outcome.ok (), Outcome.ok (), Outcome.ok ⟨false, 0, 0⟩⟩
        "./data/product.csv" "PRODUCTS").connClosed = true :=
  ⟨(C10_silent_upload_failure _ _ _ ⟨false, 0, 0⟩ rfl rfl rfl rfl).1,
   (C10_silent_upload_failure _ _ _ ⟨false, 0, 0⟩ rfl rfl rfl rfl).2.2.2.1⟩

/-- C1 fails as stated: a connection error is *not* caught inside the load
operation.  `conn = get_snowflake_connection()` runs before the `try` block,
so when acquiring the connection for the second operation raises, nothing is
logged by that operation, the exception propagates out of
`load_csv_to_snowflake`, and the third operation never runs: only two of the
three operations execute. -/
theorem C1_counterexample :
    (runMain okEnv connFailEnv okEnv).1.length = 2 ∧
    (runMain okEnv connFailEnv okEnv).2 = some "250001: could not connect" ∧
    ((runMain okEnv connFailEnv okEnv).1.getD 1 ⟨[], false, none⟩).prints = [] := by
  decide

/-- C1 amended: every load-time failure raised during a load operation
*after the connection is acquired* — a read error, or an upload error — is
caught inside the operation and logged, and the remaining load operations
still run to completion; in particular, if the second of the three
operations fails during read or upload, the first and third still complete.
(A failure while acquiring the connection itself propagates uncaught and
aborts the remaining operations, as `C1_counterexample` shows.) -/
theorem C1_amended_failure_isolation (e1 e2 e3 : LoadEnv)
    (h1 : e1.connectResult = Outcome.ok ())
    (h2 : e2.connectResult = Outcome.ok ())
    (h3 : e3.connectResult = Outcome.ok ()) :
    runMain e1 e2 e3 =
      ([load_csv_to_snowflake e1 "./data/transaction_data.csv" "TRANSACTIONS",
        load_csv_to_snowflake e2 "./data/product.csv" "PRODUCTS",
        load_csv_to_snowflake e3 "./data/hh_demographic.csv" "DEMOGRAPHICS"],
       none) ∧
    (∀ m, e2.readResult = Outcome.exn m ∨
        (e2.readResult = Outcome.ok () ∧ e2.writeResult = Outcome.exn m) →
      errorMsg m ∈
        (load_csv_to_snowflake e2 "./data/product.csv" "PRODUCTS").prints) := by
  have r1 := load_raised_none e1 "./data/transaction_data.csv" "TRANSACTIONS" h1
  have r2 := load_raised_none e2 "./data/product.csv" "PRODUCTS" h2
  have r3 := load_raised_none e3 "./data/hh_demographic.csv" "DEMOGRAPHICS" h3
  constructor
  · simp only [runMain, runOps, r1, r2, r3]
  · intro m hm
    exact load_logs_error e2 "./data/product.csv" "PRODUCTS" m h2 hm

theorem C1_amended_failure_isolation_witness :
    runMain okEnv uploadFailEnv okEnv =
      ([load_csv_to_snowflake okEnv "./data/transaction_data.csv" "TRANSACTIONS",
        load_csv_to_snowflake uploadFailEnv "./data/product.csv" "PRODUCTS",
        load_csv_to_snowflake okEnv "./data/hh_demographic.csv" "DEMOGRAPHICS"],
       none) ∧
    errorMsg "ProgrammingError: upload failed" ∈
      (load_csv_to_snowflake uploadFailEnv "./data/product.csv" "PRODUCTS").prints :=
  ⟨(C1_amended_failure_isolation okEnv uploadFailEnv okEnv rfl rfl rfl).1,
   (C1_amended_failure_isolation okEnv uploadFailEnv okEnv rfl rfl rfl).2
     "ProgrammingError: upload failed" (Or.inr ⟨rfl, rfl⟩)⟩

end LoadData

namespace DemoDataGen

/-! ## Generator claims -/

/-- C4: the basket id of the transaction generated at index `i` is the fixed
base offset 30000000000 plus `i / 3`; two transactions share a basket id
exactly when their generation indices have the same quotient by 3 (so
indices 0,1,2 share `base+0`, indices 3,4,5 share `base+1`, and so on). -/
theorem C4_basket_id_rule (demo : List Household) (prods : List Product)
    (draws : Nat → TransactionDraw) (i j : Nat) (hi : i < 2000)
    (hj : j < 2000) :
    ((transaction_df demo prods draws).getD i emptyTransaction).BASKET_ID =
      30000000000 + i / 3 ∧
    (((transaction_df demo prods draws).getD i emptyTransaction).BASKET_ID =
        ((transaction_df demo prods draws).getD j emptyTransaction).BASKET_ID ↔
      i / 3 = j / 3) := by
  constructor
  · rw [transaction_df_getD demo prods draws hi, mkTransaction_BASKET_ID]
  · rw [transaction_df_getD demo prods draws hi,
      transaction_df_getD demo prods draws hj, mkTransaction_BASKET_ID,
      mkTransaction_BASKET_ID]
    omega

theorem C4_basket_id_rule_witness :
    (3 < 2000 ∧ 5 < 2000) ∧
    ((sampleTable.getD 3 emptyTransaction).BASKET_ID = 30000000000 + 3 / 3 ∧
     ((sampleTable.getD 3 emptyTransaction).BASKET_ID =
        (sampleTable.getD 5 emptyTransaction).BASKET_ID ↔ 3 / 3 = 5 / 3)) :=
  ⟨⟨by norm_num, by norm_num⟩,
   C4_basket_id_rule (demo_df sampleGenDraws.hh) (product_df sampleGenDraws.prod)
     sampleGenDraws.trans 3 5 (by norm_num) (by norm_num)⟩

/-- C3 fails as stated: 2000 is not a multiple of 3, so in the generated
2000-row table the final basket id (`30000000000 + 666`, covering indices
1998 and 1999) is shared by exactly 2 transactions, not 3.  Exhibited on the
concrete table generated from the sample draw stream. -/
theorem C3_counterexample :
    ¬ ∀ b, (∃ t ∈ sampleTable, t.BASKET_ID = b) →
      sampleTable.countP (fun t => decide (t.BASKET_ID = b)) = 3 := by
  intro hcl
  have hmem : ∃ t ∈ sampleTable, t.BASKET_ID = 30000000000 + 666 := by
    refine ⟨mkTransaction (demo_df sampleGenDraws.hh)
      (product_df sampleGenDraws.prod) 1998 (sampleGenDraws.trans 1998), ?_, ?_⟩
    · unfold sampleTable transaction_df
      exact List.mem_map.mpr ⟨1998, List.mem_range.mpr (by norm_num), rfl⟩
    · rw [mkTransaction_BASKET_ID]
  have h2 := hcl (30000000000 + 666) hmem
  have h3 : sampleTable.countP
      (fun t => decide (t.BASKET_ID = 30000000000 + 666)) = 2 := by
    unfold sampleTable
    rw [transaction_df_basket_count]
    norm_num
  omega

/-- C3 amended: basket ids group contiguous transaction indices into
purchase baskets of size 3, except that the 2000-row count is not divisible
by 3: each of the basket id values `30000000000 + b` for `b < 666` is shared
by exactly 3 transactions, the final basket id `30000000000 + 666` by
exactly 2, and a basket id `30000000000 + b` with `b > 666` occurs in no
transaction. -/
theorem C3_amended_basket_sizes (demo : List Household) (prods : List Product)
    (draws : Nat → TransactionDraw) (b : Nat) :
    (transaction_df demo prods draws).countP
        (fun t => decide (t.BASKET_ID = 30000000000 + b)) =
      if b < 666 then 3 else if b = 666 then 2 else 0 :=
  transaction_df_basket_count demo prods draws b

/-- C6: every generated transaction's household reference is the household
key of some row of the generated household table, and its product reference
is the product id of some row of the generated product table. -/
theorem C6_foreign_key_references (g : GenDraws)
    (hs : ∀ i, i < 2000 → (g.trans i).InSupport) :
    ∀ t ∈ transaction_df (demo_df g.hh) (product_df g.prod) g.trans,
      (∃ hh ∈ demo_df g.hh, t.HOUSEHOLD_KEY = hh.household_key) ∧
      (∃ p ∈ product_df g.prod, t.PRODUCT_ID = p.PRODUCT_ID) := by
  intro t ht
  unfold transaction_df at ht
  rw [List.mem_map] at ht
  obtain ⟨i, hi, rfl⟩ := ht
  rw [List.mem_range] at hi
  obtain ⟨h1, h2, -⟩ := hs i hi
  constructor
  · refine ⟨(demo_df g.hh).getD (g.trans i).hhIdx emptyHousehold, ?_, ?_⟩
    · exact getD_mem_of_lt _ _ _ (by rw [demo_df_length]; exact h1)
    · rw [mkTransaction_HOUSEHOLD_KEY]
  · refine ⟨(product_df g.prod).getD (g.trans i).prodIdx emptyProduct, ?_, ?_⟩
    · exact getD_mem_of_lt _ _ _ (by rw [product_df_length]; exact h2)
    · rw [mkTransaction_PRODUCT_ID]

theorem C6_foreign_key_references_witness :
    (∃ hh ∈ demo_df sampleGenDraws.hh,
        (sampleTable.getD 0 emptyTransaction).HOUSEHOLD_KEY =
          hh.household_key) ∧
    (∃ p ∈ product_df sampleGenDraws.prod,
        (sampleTable.getD 0 emptyTransaction).PRODUCT_ID = p.PRODUCT_ID) :=
  C6_foreign_key_references sampleGenDraws
    (fun _ _ => (by decide : sampleTransactionDraw.InSupport))
    (sampleTable.getD 0 emptyTransaction)
    (getD_mem_of_lt _ _ _ (by rw [transaction_df_length]; norm_num))

/-- C7: every generated product row's sub-commodity is the fixed transform
`"SUB_" ++ commodity`, and its commodity is a member of the fixed list of
commodities valid for its department. -/
theorem C7_product_invariants (draws : Nat → ProductDraw)
    (hs : ∀ i, i < 50 → (draws i).InSupport) :
    ∀ p ∈ product_df draws,
      p.SUB_COMMODITY_DESC = "SUB_" ++ p.COMMODITY_DESC ∧
      p.COMMODITY_DESC ∈ commodities p.DEPARTMENT := by
  intro p hp
  unfold product_df at hp
  rw [List.mem_map] at hp
  obtain ⟨i, hi, rfl⟩ := hp
  rw [List.mem_range] at hi
  obtain ⟨-, hc, -⟩ := hs i hi
  exact ⟨rfl, getD_mem_of_lt _ _ _ hc⟩

theorem C7_product_invariants_witness :
    ((product_df sampleGenDraws.prod).getD 0 emptyProduct).SUB_COMMODITY_DESC =
      "SUB_" ++
        ((product_df sampleGenDraws.prod).getD 0 emptyProduct).COMMODITY_DESC ∧
    ((product_df sampleGenDraws.prod).getD 0 emptyProduct).COMMODITY_DESC ∈
      commodities
        ((product_df sampleGenDraws.prod).getD 0 emptyProduct).DEPARTMENT :=
  C7_product_invariants sampleGenDraws.prod
    (fun _ _ => (by decide : sampleProductDraw.InSupport))
    ((product_df sampleGenDraws.prod).getD 0 emptyProduct)
    (getD_mem_of_lt _ _ _ (by rw [product_df_length]; norm_num))

/-- C9: every generated transaction's quantity is an integer between 1 and 5
inclusive, and decomposes as the base draw from {1,2}, plus a draw from
{1,2} exactly when the household's kid category is not `"None/Unknown"`,
plus 1 exactly when the date is a weekend and the 0.2-probability gate
fired. -/
theorem C9_quantity_range (demo : List Household) (prods : List Product)
    (i : Nat) (d : TransactionDraw) (h : d.InSupport) :
    1 ≤ (mkTransaction demo prods i d).QUANTITY ∧
    (mkTransaction demo prods i d).QUANTITY ≤ 5 ∧
    (mkTransaction demo prods i d).QUANTITY =
      d.qtyBase +
      (if (demo.getD d.hhIdx emptyHousehold).KID_CATEGORY_DESC ≠ "None/Unknown"
        then d.qtyKids else 0) +
      (if isWeekend d.daysOffset ∧ d.weekendSpike then 1 else 0) := by
  obtain ⟨-, -, -, -, -, hq1, hq2, hk1, hk2, -, -, -⟩ := h
  simp only [mkTransaction_QUANTITY, quantity]
  split_ifs <;> omega

theorem C9_quantity_range_witness :
    sampleTransactionDraw.InSupport ∧
    (1 ≤ (mkTransaction (demo_df sampleGenDraws.hh)
        (product_df sampleGenDraws.prod) 0 sampleTransactionDraw).QUANTITY ∧
     (mkTransaction (demo_df sampleGenDraws.hh)
        (product_df sampleGenDraws.prod) 0 sampleTransactionDraw).QUANTITY ≤ 5 ∧
     (mkTransaction (demo_df sampleGenDraws.hh)
        (product_df sampleGenDraws.prod) 0 sampleTransactionDraw).QUANTITY =
       sampleTransactionDraw.qtyBase +
       (if ((demo_df sampleGenDraws.hh).getD sampleTransactionDraw.hhIdx
            emptyHousehold).KID_CATEGORY_DESC ≠ "None/Unknown"
         then sampleTransactionDraw.qtyKids else 0) +
       (if isWeekend sampleTransactionDraw.daysOffset ∧
            sampleTransactionDraw.weekendSpike then 1 else 0)) :=
  ⟨by decide,
   C9_quantity_range (demo_df sampleGenDraws.hh) (product_df sampleGenDraws.prod)
     0 sampleTransactionDraw (by decide)⟩

end DemoDataGen

namespace DemoDataGen

/-- The unit price lies in `[1, 15)`: the base price is in `[1, 10)` and the
income multiplier is either absent or `1.5`. -/
lemma unitPrice_bounds (hh : Household) (d : TransactionDraw)
    (h1 : 1 ≤ d.basePrice) (h2 : d.basePrice < 10) :
    1 ≤ unitPrice hh d ∧ unitPrice hh d < 15 := by
  unfold unitPrice
  split_ifs
  · constructor <;> linarith
  · constructor <;> linarith

/-- The final quantity is at least the base draw, hence positive. -/
lemma quantity_pos (hh : Household) (d : TransactionDraw)
    (h : 1 ≤ d.qtyBase) : 1 ≤ quantity hh d := by
  simp only [quantity]
  split_ifs <;> omega

/-- Rounding `u * q` to 2 decimals keeps the per-unit value inside the
closed interval `[1, 15]` whenever `u ∈ [1, 15)` and `q ≥ 1`. -/
lemma round2_quotient_bounds (u : ℚ) (q : ℕ) (hu1 : 1 ≤ u) (hu2 : u < 15)
    (hq : 1 ≤ q) :
    1 ≤ round2 (u * q) / q ∧ round2 (u * q) / q ≤ 15 := by
  have hq0 : (0 : ℚ) < q := by exact_mod_cast hq
  have hlow : ((100 * q : ℤ) : ℚ) ≤ 100 * (u * q) + 1 / 2 := by
    push_cast
    have hbase : (q : ℚ) ≤ u * q := le_mul_of_one_le_left (le_of_lt hq0) hu1
    linarith
  have hup : 100 * (u * q) + 1 / 2 < ((1500 * q + 1 : ℤ) : ℚ) := by
    push_cast
    have hmul : u * q < 15 * q := mul_lt_mul_of_pos_right hu2 hq0
    linarith
  have hfl : (100 * q : ℤ) ≤ round (100 * (u * q)) := by
    rw [round_eq]
    exact Int.le_floor.mpr hlow
  have hfu : round (100 * (u * q)) < 1500 * q + 1 := by
    rw [round_eq]
    exact Int.floor_lt.mpr hup
  have h100q : (0 : ℚ) < 100 * q := by positivity
  unfold round2
  constructor
  · rw [div_div, one_le_div h100q]
    exact_mod_cast hfl
  · rw [div_div, div_le_iff₀ h100q]
    have hle : round (100 * (u * q)) ≤ 1500 * q := by omega
    calc ((round (100 * (u * q)) : ℤ) : ℚ) ≤ ((1500 * q : ℤ) : ℚ) := by
          exact_mod_cast hle
      _ = 15 * (100 * q) := by push_cast; ring

/-- C2: every generated transaction's sales value equals
`round(unit price × quantity, 2)` for the unit price drawn for that
transaction, and the per-unit value `sales value / quantity` lies in the
closed interval `[1, 15]` (base price uniform in `[1, 10)`, times `1.5` for
high-income households, times the quantity, rounded to 2 decimals). -/
theorem C2_sales_value_bounds (demo : List Household) (prods : List Product)
    (i : Nat) (d : TransactionDraw) (h : d.InSupport) :
    (mkTransaction demo prods i d).SALES_VALUE =
      round2 (unitPrice (demo.getD d.hhIdx emptyHousehold) d *
        (mkTransaction demo prods i d).QUANTITY) ∧
    1 ≤ (mkTransaction demo prods i d).SALES_VALUE /
        (mkTransaction demo prods i d).QUANTITY ∧
    (mkTransaction demo prods i d).SALES_VALUE /
        (mkTransaction demo prods i d).QUANTITY ≤ 15 := by
  obtain ⟨-, -, -, hp1, hp2, hq1, -, -, -, -, -, -⟩ := h
  refine ⟨rfl, ?_⟩
  rw [mkTransaction_SALES_VALUE, mkTransaction_QUANTITY]
  exact round2_quotient_bounds _ _
    (unitPrice_bounds (demo.getD d.hhIdx emptyHousehold) d hp1 hp2).1
    (unitPrice_bounds (demo.getD d.hhIdx emptyHousehold) d hp1 hp2).2
    (quantity_pos (demo.getD d.hhIdx emptyHousehold) d hq1)

theorem C2_sales_value_bounds_witness :
    sampleTransactionDraw.InSupport ∧
    ((mkTransaction (demo_df sampleGenDraws.hh)
        (product_df sampleGenDraws.prod) 0 sampleTransactionDraw).SALES_VALUE =
      round2 (unitPrice ((demo_df sampleGenDraws.hh).getD
          sampleTransactionDraw.hhIdx emptyHousehold) sampleTransactionDraw *
        (mkTransaction (demo_df sampleGenDraws.hh)
          (product_df sampleGenDraws.prod) 0 sampleTransactionDraw).QUANTITY) ∧
     1 ≤ (mkTransaction (demo_df sampleGenDraws.hh)
          (product_df sampleGenDraws.prod) 0 sampleTransactionDraw).SALES_VALUE /
        (mkTransaction (demo_df sampleGenDraws.hh)
          (product_df sampleGenDraws.prod) 0 sampleTransactionDraw).QUANTITY ∧
     (mkTransaction (demo_df sampleGenDraws.hh)
          (product_df sampleGenDraws.prod) 0 sampleTransactionDraw).SALES_VALUE /
        (mkTransaction (demo_df sampleGenDraws.hh)
          (product_df sampleGenDraws.prod) 0 sampleTransactionDraw).QUANTITY ≤ 15) :=
  ⟨by decide,
   C2_sales_value_bounds (demo_df sampleGenDraws.hh)
     (product_df sampleGenDraws.prod) 0 sampleTransactionDraw (by decide)⟩

/-- C8: the generator is deterministic in its seed.  The seed determines,
through the pseudo-random number generator, the whole stream of draws the
script consumes; the output tables are a function of the finite prefix of
that stream actually read (100 household draws, 50 product draws, 2000
transaction draws), so two runs whose streams agree on that prefix — in
particular two runs from the same seed — produce identical household,
product, and transaction tables. -/
theorem C8_seed_determinism (g1 g2 : GenDraws)
    (hhh : ∀ i, i < 100 → g1.hh i = g2.hh i)
    (hpp : ∀ i, i < 50 → g1.prod i = g2.prod i)
    (htt : ∀ i, i < 2000 → g1.trans i = g2.trans i) :
    runGenerator g1 = runGenerator g2 := by
  have e1 : demo_df g1.hh = demo_df g2.hh := by
    unfold demo_df
    apply List.map_congr_left
    intro i hi
    rw [hhh i (List.mem_range.mp hi)]
  have e2 : product_df g1.prod = product_df g2.prod := by
    unfold product_df
    apply List.map_congr_left
    intro i hi
    rw [hpp i (List.mem_range.mp hi)]
  have e3 : transaction_df (demo_df g1.hh) (product_df g1.prod) g1.trans =
      transaction_df (demo_df g2.hh) (product_df g2.prod) g2.trans := by
    rw [e1, e2]
    unfold transaction_df
    apply List.map_congr_left
    intro i hi
    rw [htt i (List.mem_range.mp hi)]
  show (demo_df g1.hh, product_df g1.prod,
      transaction_df (demo_df g1.hh) (product_df g1.prod) g1.trans) =
    (demo_df g2.hh, product_df g2.prod,
      transaction_df (demo_df g2.hh) (product_df g2.prod) g2.trans)
  rw [e3, e1, e2]

theorem C8_seed_determinism_witness :
    runGenerator sampleGenDraws = runGenerator sampleGenDraws :=
  C8_seed_determinism sampleGenDraws sampleGenDraws
    (fun _ _ => rfl) (fun _ _ => rfl) (fun _ _ => rfl)

end DemoDataGen
